import Mathlib

/-!
Verification development for the lawyer880 static-site content pipeline
(`tools/article-generator.py`, `tools/index-generator.py`,
`tools/sitemap-generator.py`, `tools/content-manager.py`).

The Python sources are shallowly embedded: pure string manipulation becomes
Lean functions over `String`/`List Char`, file-system state becomes explicit
arguments (directory listings, file contents), `datetime.now()` becomes an
explicit parameter, and exceptions become `Except`/sum results threaded with
the unchanged state.
-/

/-! ## String primitives mirroring the Python string/regex operations -/

/-- Characters matched by Python's regex class `\s` (the ASCII part, which is
all the repository's data uses). -/
def pySpace (c : Char) : Bool := c.isWhitespace

/-- Characters matched by Python's regex class `\w` (letters, digits and the
underscore).  The ASCII part is exact; the non-ASCII part is restricted to the
CJK Unified Ideographs block (U+4E00 to U+9FFF), the only non-ASCII letters
occurring in this repository's titles.  Note `\w` keeps the underscore, which
is a word character but not alphanumeric. -/
def pyWordChar (c : Char) : Bool :=
  c.isAlphanum || c = '_' || (decide (0x4E00 ≤ c.toNat) && decide (c.toNat ≤ 0x9FFF))

/-- Python `str.strip()` on an explicit character list. -/
def stripWs (l : List Char) : List Char :=
  ((l.dropWhile pySpace).reverse.dropWhile pySpace).reverse

/-- One pass of Python `re.sub(r'[-\s]+', '-', s)`: every maximal run of
hyphens/whitespace is replaced by a single hyphen.  The boolean records
whether we are inside such a run. -/
def collapseAux : List Char → Bool → List Char
  | [], _ => []
  | c :: rest, inRun =>
    if c = '-' || pySpace c then
      if inRun then collapseAux rest true
      else '-' :: collapseAux rest true
    else c :: collapseAux rest false

/-- Python `pat in s` on character lists (substring containment). -/
def containsSubList (pat : List Char) : List Char → Bool
  | [] => pat.isEmpty
  | c :: rest => pat.isPrefixOf (c :: rest) || containsSubList pat rest

/-- Python `pat in s` for strings. -/
def containsSub (pat s : String) : Bool := containsSubList pat.data s.data

/-- Python `s.startswith(pre)`. -/
def startsWithStr (pre s : String) : Bool := pre.data.isPrefixOf s.data

/-- Python `s.endswith(suf)`. -/
def endsWithStr (suf s : String) : Bool := suf.data.reverse.isPrefixOf s.data.reverse

/-- Python `s.lower()` (ASCII lowering; non-ASCII characters are untouched,
which agrees with Python on the ASCII keywords the code compares against). -/
def lowerStr (s : String) : String := ⟨s.data.map Char.toLower⟩

/-- Index of the first occurrence of `pat` in `s` at position `pos` or later,
scanning left to right (helper for Python `str.find`). -/
def pyFindAux (pat : List Char) : List Char → Nat → Option Nat
  | [], pos => if pat.isEmpty then some pos else none
  | c :: rest, pos =>
    if pat.isPrefixOf (c :: rest) then some pos else pyFindAux pat rest (pos + 1)

/-- Python `s.find(pat)`: character index of the first occurrence, `-1` if
absent. -/
def pyFind (pat s : String) : Int :=
  match pyFindAux pat.data s.data 0 with
  | some i => (i : Int)
  | none => -1

/-- Python `s.find(pat, start)`. -/
def pyFindFrom (pat s : String) (start : Nat) : Int :=
  match pyFindAux pat.data (s.data.drop start) 0 with
  | some i => ((i + start : Nat) : Int)
  | none => -1

/-- Prefix of `s` up to (excluding) the first occurrence of `pat`
(all of `s` when `pat` does not occur). -/
def takeUntilFirst (pat : List Char) : List Char → List Char
  | [] => []
  | c :: rest => if pat.isPrefixOf (c :: rest) then [] else c :: takeUntilFirst pat rest

/-- Remainder of `s` strictly after the first occurrence of `pat`,
`none` when `pat` does not occur. -/
def dropThroughFirst (pat : List Char) : List Char → Option (List Char)
  | [] => if pat.isEmpty then some [] else none
  | c :: rest =>
    if pat.isPrefixOf (c :: rest) then some ((c :: rest).drop pat.length)
    else dropThroughFirst pat rest

/-- Python `s.split(pat)[1]` under the guarantee that `pat` occurs in `s`:
the text between the first occurrence of `pat` and the next occurrence of
`pat` (or the end of `s`). -/
def secondChunk (pat : List Char) (s : List Char) : List Char :=
  match dropThroughFirst pat s with
  | some r => takeUntilFirst pat r
  | none => []

/-- Python `s.count(pat)` for a non-empty pattern: non-overlapping
occurrences, scanning left to right.  After a match the next `skip`
characters are still part of the matched occurrence and are passed over. -/
def pyCountAux (pat : List Char) : List Char → Nat → Nat
  | [], _ => 0
  | c :: rest, 0 =>
    if pat.isPrefixOf (c :: rest) then pyCountAux pat rest (pat.length - 1) + 1
    else pyCountAux pat rest 0
  | _ :: rest, skip + 1 => pyCountAux pat rest skip

/-- Python `s.count(pat)`. -/
def pyCount (pat s : String) : Nat :=
  match pat.data with
  | [] => s.data.length + 1
  | pd => pyCountAux pd s.data 0

/-! ## `tools/article-generator.py` -/

/-- One entry of the `self.categories` table in `ArticleGenerator.__init__`. -/
structure CategoryInfo where
  name : String
  page : String
  subcategories : List String
deriving DecidableEq

/-- The static 8-category table from `ArticleGenerator.__init__`
(`self.categories`), in source order. -/
def categoriesTable : List (String × CategoryInfo) :=
  [ ("inheritance",
     { name := "繼承法", page := "legal-knowledge.html#inheritance",
       subcategories := ["tax-planning", "registration", "disputes", "wills"] }),
    ("real-estate",
     { name := "不動產法", page := "legal-knowledge.html#real-estate",
       subcategories := ["transactions", "mortgages", "disputes", "registration"] }),
    ("family-law",
     { name := "家事法", page := "legal-knowledge.html#family-law",
       subcategories := ["divorce", "custody", "property", "support"] }),
    ("civil-law",
     { name := "民事法", page := "legal-knowledge.html#civil-law",
       subcategories := ["contracts", "torts", "property", "obligations"] }),
    ("criminal-law",
     { name := "刑事法", page := "legal-knowledge.html#criminal-law",
       subcategories := ["crimes", "procedures", "evidence", "penalties"] }),
    ("corporate-law",
     { name := "公司法", page := "legal-knowledge.html#corporate-law",
       subcategories := ["formation", "governance", "securities", "mergers"] }),
    ("labor-law",
     { name := "勞動法", page := "legal-knowledge.html#labor-law",
       subcategories := ["employment", "disputes", "benefits", "safety"] }),
    ("tax-law",
     { name := "稅法", page := "legal-knowledge.html#tax-law",
       subcategories := ["income", "estate", "corporate", "international"] }) ]

/-- The slug computed inside `generate_filename`:
`clean_title = re.sub(r'[^\w\s-]', '', title).strip()` followed by
`clean_title = re.sub(r'[-\s]+', '-', clean_title)`. -/
def slugOf (title : String) : String :=
  ⟨collapseAux (stripWs (title.data.filter (fun c => pyWordChar c || pySpace c || c = '-'))) false⟩

/-- `ArticleGenerator.generate_filename` with the date passed explicitly
(in the Python, `date` defaults to `datetime.now().strftime("%Y%m%d")`). -/
def generate_filename (category subcategory title date : String) : String :=
  category ++ "-" ++ subcategory ++ "-" ++ slugOf title ++ "-" ++ date ++ ".html"

/-- An entry of the `articles` list of the index
(`article_info` in `update_index`). -/
structure ArticleRecord where
  filename : String
  title : String
  category : String
  subcategory : String
  date : String
  url : String
deriving DecidableEq

/-- The article-index JSON object. -/
structure ArticleIndex where
  articles : List ArticleRecord
  total_articles : Nat
  categories : List (String × CategoryInfo)
  last_updated : String
deriving DecidableEq

/-- The `article_info` dict built inside `update_index`. -/
def mkArticleRecord (filename title category subcategory date : String) : ArticleRecord :=
  { filename, title, category, subcategory, date,
    url := "https://lawyer880.com/" ++ filename }

/-- `ArticleGenerator.update_index`: loads the index, appends `article_info`,
recomputes `total_articles` as the new list length, stamps `last_updated`
(`now` here), and saves.  The load/save round trip is the identity on the
in-memory value, so the embedding is the state transformation. -/
def update_index (idx : ArticleIndex)
    (filename title category subcategory date now : String) : ArticleIndex :=
  let arts := idx.articles ++ [mkArticleRecord filename title category subcategory date]
  { idx with articles := arts, total_articles := arts.length, last_updated := now }

/-- The fresh index built by `load_index` when the index file is absent. -/
def freshIndex (now : String) : ArticleIndex :=
  { articles := [], total_articles := 0, categories := categoriesTable, last_updated := now }

/-- The error raised out of `load_index`: `json.load` raises on malformed
JSON (the spec's `CorruptIndex`). -/
inductive LoadError
  | corruptIndex
deriving DecidableEq

/-- `ArticleGenerator.load_index`.  The file-system/JSON layer (Python's
`os.path.exists` plus `json.load`) is modelled by the argument: `none` means
the file is absent, `some none` a present but malformed file, and
`some (some idx)` a present file whose JSON parses to `idx`. -/
def load_index (file : Option (Option ArticleIndex)) (now : String) :
    Except LoadError ArticleIndex :=
  match file with
  | none => .ok (freshIndex now)
  | some none => .error .corruptIndex
  | some (some idx) => .ok idx

/-- The `ValueError`s raised by `create_article` on a bad category or
subcategory (the spec's `InvalidCategory` / `InvalidSubcategory`). -/
inductive CreateError
  | invalidCategory (c : String)
  | invalidSubcategory (s : String)
deriving DecidableEq

/-- `ArticleGenerator.create_article`, restricted to its index-relevant
effects: validate category and subcategory against the static table, derive
the filename, and update the index.  Template reading and the article-HTML
write are I/O on other files and do not touch the index.  `todayCompact` is
`datetime.now().strftime("%Y%m%d")` (used by `generate_filename`) and
`todayDash` is `strftime("%Y-%m-%d")` (stored in the record).  On a
validation error the Python raises before any write, so the returned index is
the incoming one unchanged. -/
def create_article (idx : ArticleIndex) (title category subcategory : String)
    (todayDash todayCompact now : String) : Except CreateError String × ArticleIndex :=
  match categoriesTable.lookup category with
  | none => (.error (.invalidCategory category), idx)
  | some ci =>
    if subcategory ∈ ci.subcategories then
      let filename := generate_filename category subcategory title todayCompact
      (.ok filename, update_index idx filename title category subcategory todayDash now)
    else (.error (.invalidSubcategory subcategory), idx)

/-- One registration request (the arguments `update_index` is called with). -/
structure RegInput where
  filename : String
  title : String
  category : String
  subcategory : String
  date : String
deriving DecidableEq

/-- Registering a batch of articles: `update_index` once per request, in
order. -/
def registerAll (idx : ArticleIndex) (regs : List RegInput) (now : String) : ArticleIndex :=
  regs.foldl (fun i r => update_index i r.filename r.title r.category r.subcategory r.date now) idx

/-! ## `tools/index-generator.py` -/

/-- `IndexGenerator.infer_category_from_filename`: the literal if/elif chain
over the lowercased filename. -/
def infer_category_from_filename (filename : String) : String :=
  let fl := lowerStr filename
  if containsSub "inheritance" fl || containsSub "estate" fl || containsSub "will" fl then
    "inheritance"
  else if containsSub "real-estate" fl || containsSub "property" fl || containsSub "mortgage" fl then
    "real-estate"
  else if containsSub "family" fl || containsSub "divorce" fl || containsSub "custody" fl then
    "family-law"
  else if containsSub "criminal" fl then
    "criminal-law"
  else if containsSub "corporate" fl || containsSub "company" fl then
    "corporate-law"
  else if containsSub "labor" fl || containsSub "employment" fl then
    "labor-law"
  else if containsSub "tax" fl then
    "tax-law"
  else
    "civil-law"

/-- The ordered keyword rule list of `infer_category_from_filename`, written
as data (the spec's reading of the if/elif chain). -/
def keywordRules : List (List String × String) :=
  [ (["inheritance", "estate", "will"], "inheritance"),
    (["real-estate", "property", "mortgage"], "real-estate"),
    (["family", "divorce", "custody"], "family-law"),
    (["criminal"], "criminal-law"),
    (["corporate", "company"], "corporate-law"),
    (["labor", "employment"], "labor-law"),
    (["tax"], "tax-law") ]

/-- A rule fires when any of its keywords occurs in the (already lowercased)
filename. -/
def matchesRule (fl : String) (kws : List String) : Bool :=
  kws.any (fun k => containsSub k fl)

/-- First-match-wins interpretation of an ordered rule list, defaulting to
`civil-law`. -/
def firstMatchCategory : List (List String × String) → String → String
  | [], _ => "civil-law"
  | (kws, cat) :: rest, fl =>
    if matchesRule fl kws then cat else firstMatchCategory rest fl

/-- The eight category keys, in table order. -/
def categoryNames : List String :=
  ["inheritance", "real-estate", "family-law", "civil-law",
   "criminal-law", "corporate-law", "labor-law", "tax-law"]

/-- A file of the scanned base directory: its name, its text content and the
`%Y-%m-%d` rendering of its modification time (`os.path.getmtime`). -/
structure DiskFile where
  name : String
  content : String
  mtimeDate : String
deriving DecidableEq

/-- The dict returned by `IndexGenerator.extract_article_info`, restricted to
the fields consumed downstream (`generate_sitemap_index` uses `url` and
`date`; grouping uses `category`).  The `<title>`/`<h1>`/meta-description
text extraction feeds only the display fields `title`/`description`, which no
modelled operation reads, so those two fields are elided. -/
structure ScannedArticle where
  filename : String
  category : String
  date : String
  url : String
deriving DecidableEq

/-- `IndexGenerator.extract_article_info` on a readable file (on an OS read
error the Python returns `None` and the file is skipped; the pure model takes
the readable contents as given). -/
def extract_article_info (f : DiskFile) : ScannedArticle :=
  { filename := f.name,
    category := infer_category_from_filename f.name,
    date := f.mtimeDate,
    url := "https://lawyer880.com/" ++ f.name }

/-- The filename filter of `IndexGenerator.scan_existing_articles`:
`filename.startswith("article-") and filename.endswith(".html")`. -/
def isRootArticleFile (name : String) : Bool :=
  startsWithStr "article-" name && endsWithStr ".html" name

/-- `IndexGenerator.scan_existing_articles`, restricted to the `articles`
list it builds (the per-category grouping and date sort derived from that
list are not consumed by the sitemap builder). -/
def scan_existing_articles (files : List DiskFile) : List ScannedArticle :=
  (files.filter (fun f => isRootArticleFile f.name)).map extract_article_info

/-- One `url` element of the generated sitemap. -/
structure SitemapEntry where
  loc : String
  lastmod : String
  changefreq : String
  priority : String
deriving DecidableEq

/-- The two hard-coded static entries of
`IndexGenerator.generate_sitemap_index` (`today` is
`datetime.now().strftime("%Y-%m-%d")`). -/
def staticSitemapEntries (today : String) : List SitemapEntry :=
  [ { loc := "https://lawyer880.com/", lastmod := today,
      changefreq := "weekly", priority := "1.0" },
    { loc := "https://lawyer880.com/legal-knowledge.html", lastmod := today,
      changefreq := "weekly", priority := "0.9" } ]

/-- `IndexGenerator.generate_sitemap_index`: the sequence of `url` entries
written to `sitemap.xml` — the two static entries followed by one entry per
scanned root-directory article file. -/
def generate_sitemap_index (files : List DiskFile) (today : String) : List SitemapEntry :=
  staticSitemapEntries today ++
    (scan_existing_articles files).map
      (fun a => { loc := a.url, lastmod := a.date, changefreq := "monthly", priority := "0.6" })

/-! ## `tools/content-manager.py` -/

/-- The `optimization_report` dict of `ContentManager.optimize_article_seo`:
the `checks` values (`title_length` and `description_length` are set only
when the respective tag is present) and the `suggestions` list. -/
structure SeoReport where
  filename : String
  title_length : Option Nat
  description_length : Option Nat
  h1_count : Nat
  internal_links : Nat
  suggestions : List String
deriving DecidableEq

/-- The `<title>` check block of `optimize_article_seo`: recorded length (if
the tags are present) and suggestions contributed. -/
def seoTitleCheck (content : String) : Option Nat × List String :=
  if containsSub "<title>" content && containsSub "</title>" content then
    let t := takeUntilFirst ("</title>".data) (secondChunk ("<title>".data) content.data)
    (some t.length, if t.length > 60 then ["標題過長，建議控制在60字以內"] else [])
  else (none, ["缺少title標籤"])

/-- The meta-description check block of `optimize_article_seo`.  The Python
adds 29 to the found position although the search pattern is 28 characters
long, so the recorded description skips the value's first character; the
embedding reproduces this. -/
def seoDescCheck (content : String) : Option Nat × List String :=
  if containsSub "name=\"description\"" content then
    let ds : Int := pyFind "name=\"description\" content=\"" content + 29
    let de : Int := pyFindFrom "\"" content ds.toNat
    let d : List Char :=
      if ds < de then (content.data.drop ds.toNat).take (de - ds).toNat else []
    (some d.length, if d.length > 160 then ["描述過長，建議控制在160字以內"] else [])
  else (none, ["缺少meta description"])

/-- The `<h1>`-count suggestion block of `optimize_article_seo`. -/
def seoH1Sugs (content : String) : List String :=
  if pyCount "<h1" content ≠ 1 then
    ["h1標籤數量異常(" ++ toString (pyCount "<h1" content) ++ ")，建議每頁只有一個h1"]
  else []

/-- The internal-link count of `optimize_article_seo`. -/
def seoLinkCount (content : String) : Nat :=
  pyCount "href=\"legal-knowledge.html\"" content + pyCount "href=\"index.html\"" content

/-- The internal-link suggestion block of `optimize_article_seo`. -/
def seoLinkSugs (content : String) : List String :=
  if seoLinkCount content < 3 then ["內部連結過少，建議增加相關頁面連結"] else []

/-- The analysis body of `optimize_article_seo` (the code inside the `try`,
after the file has been read into `content`). -/
def analyzeSeo (filename content : String) : SeoReport :=
  { filename := filename,
    title_length := (seoTitleCheck content).1,
    description_length := (seoDescCheck content).1,
    h1_count := pyCount "<h1" content,
    internal_links := seoLinkCount content,
    suggestions := (seoTitleCheck content).2 ++ (seoDescCheck content).2
      ++ seoH1Sugs content ++ seoLinkSugs content }

/-- The dict returned by `optimize_article_seo`: either an error dict (the
`File not found` branch, or the `except` branch around the analysis) or the
optimization report. -/
inductive SeoResult
  | err (message : String)
  | report (r : SeoReport)
deriving DecidableEq

/-- `ContentManager.optimize_article_seo`.  The file system is the explicit
association list `files` (name to readable content); the function only reads
it and returns a value, mirroring the Python, which opens the file read-only
and never writes.  The `except` branch of the Python (returning an error dict
instead of propagating an exception) has no counterpart here because the
embedded analysis is total. -/
def optimize_article_seo (files : List (String × String)) (filename : String) : SeoResult :=
  match files.lookup filename with
  | none => .err ("File not found: " ++ filename)
  | some content => .report (analyzeSeo filename content)

/-! ## Spec-side comparison definition -/

/-- Modelled from the spec: the Slug Deriver as §4.1 words it — "strip every
character that is not alphanumeric, whitespace, or hyphen from the title" —
i.e. with the underscore excluded from the kept class, for comparison with
`generate_filename` (whose source keeps every `\w` character, underscore
included).  Alphanumeric is read in the Unicode sense, with the same CJK
block as `pyWordChar`. -/
def specAlnumChar (c : Char) : Bool :=
  c.isAlphanum || (decide (0x4E00 ≤ c.toNat) && decide (c.toNat ≤ 0x9FFF))

/-- Modelled from the spec: the slug pipeline of §4.1 with the
strictly-alphanumeric character class. -/
def slugOfSpecAlnum (title : String) : String :=
  ⟨collapseAux (stripWs (title.data.filter (fun c => specAlnumChar c || pySpace c || c = '-'))) false⟩

/-- Modelled from the spec: `generate_filename` with the §4.1 character
class. -/
def generate_filename_specAlnum (category subcategory title date : String) : String :=
  category ++ "-" ++ subcategory ++ "-" ++ slugOfSpecAlnum title ++ "-" ++ date ++ ".html"

/-! ## Shared helper lemmas -/

theorem strData_append (a b : String) : (a ++ b).data = a.data ++ b.data := rfl

theorem strEq_of_data {a b : String} (h : a.data = b.data) : a = b := by
  cases a; cases b; exact congrArg String.mk h

theorem strAppend_left_cancel {p a b : String} (h : p ++ a = p ++ b) : a = b := by
  apply strEq_of_data
  have h2 := congrArg String.data h
  rw [strData_append, strData_append] at h2
  exact List.append_cancel_left h2

theorem strAppend_empty (s : String) : s ++ "" = s :=
  strEq_of_data (by simp [strData_append])

theorem strAppend_assoc (a b c : String) : a ++ b ++ c = a ++ (b ++ c) :=
  strEq_of_data (by simp [strData_append])

theorem startsWithStr_append (p r : String) : startsWithStr p (p ++ r) = true := by
  have h : p.data <+: (p ++ r).data := by
    rw [strData_append]; exact List.prefix_append p.data r.data
  exact List.isPrefixOf_iff_prefix.mpr h

theorem startsWithStr_append_eq_false {p q : String} (r : String)
    (h1 : p.data.isPrefixOf q.data = false) (h2 : q.data.isPrefixOf p.data = false) :
    startsWithStr p (q ++ r) = false := by
  cases hb : startsWithStr p (q ++ r) with
  | false => rfl
  | true =>
    exfalso
    have hpre : p.data <+: (q ++ r).data := List.isPrefixOf_iff_prefix.mp hb
    rw [strData_append] at hpre
    rcases List.prefix_or_prefix_of_prefix hpre (List.prefix_append q.data r.data) with h | h
    · rw [← List.isPrefixOf_iff_prefix] at h; simp [h] at h1
    · rw [← List.isPrefixOf_iff_prefix] at h; simp [h] at h2

theorem mem_stripWs {l : List Char} {c : Char} (h : c ∈ stripWs l) : c ∈ l := by
  simp only [stripWs, List.mem_reverse] at h
  have h2 : c ∈ (l.dropWhile pySpace).reverse := (List.dropWhile_sublist _).subset h
  rw [List.mem_reverse] at h2
  exact (List.dropWhile_sublist _).subset h2

theorem mem_collapseAux {c : Char} :
    ∀ (l : List Char) (b : Bool), c ∈ collapseAux l b →
      c = '-' ∨ (c ∈ l ∧ c ≠ '-' ∧ pySpace c = false)
  | [], b, h => by simp [collapseAux] at h
  | d :: rest, b, h => by
    simp only [collapseAux] at h
    by_cases hd : (d = '-' || pySpace d) = true
    · rw [if_pos hd] at h
      cases b with
      | true =>
        rcases mem_collapseAux rest true h with h1 | ⟨h1, h2⟩
        · exact Or.inl h1
        · exact Or.inr ⟨List.mem_cons_of_mem d h1, h2⟩
      | false =>
        rcases List.mem_cons.mp h with h1 | h1
        · exact Or.inl h1
        · rcases mem_collapseAux rest true h1 with h2 | ⟨h2, h3⟩
          · exact Or.inl h2
          · exact Or.inr ⟨List.mem_cons_of_mem d h2, h3⟩
    · rw [if_neg hd] at h
      rcases List.mem_cons.mp h with h1 | h1
      · subst h1
        simp only [Bool.or_eq_true, decide_eq_true_eq, not_or, Bool.not_eq_true] at hd
        exact Or.inr ⟨List.mem_cons_self c rest, hd.1, hd.2⟩
      · rcases mem_collapseAux rest false h1 with h2 | ⟨h2, h3⟩
        · exact Or.inl h2
        · exact Or.inr ⟨List.mem_cons_of_mem d h2, h3⟩

theorem mem_scan_existing_articles {files : List DiskFile} {a : ScannedArticle}
    (h : a ∈ scan_existing_articles files) :
    isRootArticleFile a.filename = true ∧ startsWithStr "article-" a.filename = true := by
  simp only [scan_existing_articles, List.mem_map, List.mem_filter] at h
  obtain ⟨f, ⟨_, hpred⟩, rfl⟩ := h
  refine ⟨hpred, ?_⟩
  simp only [isRootArticleFile, Bool.and_eq_true] at hpred
  exact hpred.1

theorem firstMatchCategory_mem {fl : String} :
    ∀ rules : List (List String × String),
      (∀ r ∈ rules, r.2 ∈ categoryNames) → firstMatchCategory rules fl ∈ categoryNames
  | [], _ => by simp [firstMatchCategory, categoryNames]
  | (kws, cat) :: rest, h => by
    simp only [firstMatchCategory]
    by_cases hm : matchesRule fl kws = true
    · rw [if_pos hm]; exact h (kws, cat) (List.mem_cons_self _ _)
    · rw [if_neg hm]
      exact firstMatchCategory_mem rest (fun r hr => h r (List.mem_cons_of_mem _ hr))

theorem firstMatchCategory_default {fl : String} :
    ∀ rules : List (List String × String),
      (∀ r ∈ rules, matchesRule fl r.1 = false) → firstMatchCategory rules fl = "civil-law"
  | [], _ => rfl
  | (kws, cat) :: rest, h => by
    simp only [firstMatchCategory]
    rw [if_neg (by simp [h (kws, cat) (List.mem_cons_self _ _)])]
    exact firstMatchCategory_default rest (fun r hr => h r (List.mem_cons_of_mem _ hr))

theorem infer_eq_firstMatch (filename : String) :
    infer_category_from_filename filename = firstMatchCategory keywordRules (lowerStr filename) := by
  simp [infer_category_from_filename, firstMatchCategory, keywordRules, matchesRule,
    List.any_cons, List.any_nil, Bool.or_false, Bool.or_assoc]

theorem registerAll_articles (now : String) :
    ∀ (regs : List RegInput) (idx : ArticleIndex),
      (registerAll idx regs now).articles
        = idx.articles
          ++ regs.map (fun r => mkArticleRecord r.filename r.title r.category r.subcategory r.date)
  | [], idx => by simp [registerAll]
  | r :: rest, idx => by
    have h := registerAll_articles now rest
      (update_index idx r.filename r.title r.category r.subcategory r.date now)
    simp only [registerAll, List.foldl_cons] at *
    rw [h]
    simp [update_index, List.append_assoc]

theorem registerAll_total (now : String) :
    ∀ (regs : List RegInput) (idx : ArticleIndex),
      idx.total_articles = idx.articles.length →
      (registerAll idx regs now).total_articles = (registerAll idx regs now).articles.length
  | [], idx, h => h
  | r :: rest, idx, _ => by
    simp only [registerAll, List.foldl_cons] at *
    exact registerAll_total now rest _ rfl

/-! ## Claim theorems -/

/-- Claim C1 (counterexample): registering a record whose filename equals the
filename of a record already in the index does not fail and does not leave the
index unchanged — `update_index` appends it anyway, after which the filename
values are no longer unique. -/
theorem update_index_duplicate_cex :
    (update_index
        { articles := [mkArticleRecord "a.html" "甲" "civil-law" "torts" "2025-01-01"],
          total_articles := 1, categories := categoriesTable, last_updated := "t0" }
        "a.html" "乙" "civil-law" "contracts" "2025-01-02" "t1").articles.map
        ArticleRecord.filename = ["a.html", "a.html"] ∧
    ¬ ((update_index
        { articles := [mkArticleRecord "a.html" "甲" "civil-law" "torts" "2025-01-01"],
          total_articles := 1, categories := categoriesTable, last_updated := "t0" }
        "a.html" "乙" "civil-law" "contracts" "2025-01-02" "t1").articles.map
        ArticleRecord.filename).Nodup ∧
    update_index
        { articles := [mkArticleRecord "a.html" "甲" "civil-law" "torts" "2025-01-01"],
          total_articles := 1, categories := categoriesTable, last_updated := "t0" }
        "a.html" "乙" "civil-law" "contracts" "2025-01-02" "t1"
      ≠ { articles := [mkArticleRecord "a.html" "甲" "civil-law" "torts" "2025-01-01"],
          total_articles := 1, categories := categoriesTable, last_updated := "t0" } := by
  refine ⟨by decide, by decide, by decide⟩

/-- Claim C1 (amended): registering a record whose filename equals the
filename of a record already present never fails and never rejects —
`update_index` unconditionally appends the new record, so the resulting index
has grown by exactly that record and its filename values are no longer
pairwise distinct. -/
theorem update_index_appends_despite_duplicate
    (idx : ArticleIndex) (filename title category subcategory date now : String)
    (h : filename ∈ idx.articles.map ArticleRecord.filename) :
    (update_index idx filename title category subcategory date now).articles
      = idx.articles ++ [mkArticleRecord filename title category subcategory date] ∧
    ¬ ((update_index idx filename title category subcategory date now).articles.map
        ArticleRecord.filename).Nodup := by
  refine ⟨rfl, ?_⟩
  intro hnod
  rw [show (update_index idx filename title category subcategory date now).articles
      = idx.articles ++ [mkArticleRecord filename title category subcategory date] from rfl,
    List.map_append] at hnod
  rcases List.nodup_append.mp hnod with ⟨_, _, hdisj⟩
  exact hdisj h (by simp [mkArticleRecord])

/-- Witness for `update_index_appends_despite_duplicate` at a concrete
one-record index holding the colliding filename. -/
theorem update_index_appends_despite_duplicate_witness :
    (update_index
        { articles := [mkArticleRecord "a.html" "甲" "civil-law" "torts" "2025-01-01"],
          total_articles := 1, categories := [], last_updated := "t0" }
        "a.html" "乙" "civil-law" "contracts" "2025-01-02" "t1").articles
      = [mkArticleRecord "a.html" "甲" "civil-law" "torts" "2025-01-01"]
        ++ [mkArticleRecord "a.html" "乙" "civil-law" "contracts" "2025-01-02"] ∧
    ¬ ((update_index
        { articles := [mkArticleRecord "a.html" "甲" "civil-law" "torts" "2025-01-01"],
          total_articles := 1, categories := [], last_updated := "t0" }
        "a.html" "乙" "civil-law" "contracts" "2025-01-02" "t1").articles.map
        ArticleRecord.filename).Nodup :=
  update_index_appends_despite_duplicate
    { articles := [mkArticleRecord "a.html" "甲" "civil-law" "torts" "2025-01-01"],
      total_articles := 1, categories := [], last_updated := "t0" }
    "a.html" "乙" "civil-law" "contracts" "2025-01-02" "t1" (by decide)

/-- Claim C4: creating an article whose category is not in the closed
8-category table fails with `InvalidCategory`, and one whose category is
valid but whose subcategory is not in that category's allowed set fails with
`InvalidSubcategory`; in both cases the returned index is the incoming index
unchanged (the Python raises before any write). -/
theorem create_article_validation (idx : ArticleIndex)
    (title category subcategory todayDash todayCompact now : String) :
    (categoriesTable.lookup category = none →
      create_article idx title category subcategory todayDash todayCompact now
        = (.error (.invalidCategory category), idx)) ∧
    (∀ ci, categoriesTable.lookup category = some ci → subcategory ∉ ci.subcategories →
      create_article idx title category subcategory todayDash todayCompact now
        = (.error (.invalidSubcategory subcategory), idx)) := by
  constructor
  · intro h
    simp [create_article, h]
  · intro ci h hsub
    simp [create_article, h, hsub]

/-- Witness for `create_article_validation`: an unknown category and the
spec's concrete `(inheritance, nonexistent)` subcategory example, both
rejected with the index returned unchanged. -/
theorem create_article_validation_witness :
    create_article (freshIndex "t") "標題" "no-such-category" "tax-planning"
        "2025-01-01" "20250101" "t"
      = (.error (.invalidCategory "no-such-category"), freshIndex "t") ∧
    create_article (freshIndex "t") "標題" "inheritance" "nonexistent"
        "2025-01-01" "20250101" "t"
      = (.error (.invalidSubcategory "nonexistent"), freshIndex "t") :=
  ⟨(create_article_validation (freshIndex "t") "標題" "no-such-category" "tax-planning"
      "2025-01-01" "20250101" "t").1 (by decide),
   (create_article_validation (freshIndex "t") "標題" "inheritance" "nonexistent"
      "2025-01-01" "20250101" "t").2
     { name := "繼承法", page := "legal-knowledge.html#inheritance",
       subcategories := ["tax-planning", "registration", "disputes", "wills"] }
     (by decide) (by decide)⟩

/-- Claim C5: `update_index` recomputes `total_articles` as the length of the
`articles` list on every write, and registering `N` articles with pairwise
distinct filenames into the fresh (empty) index yields
`total_articles = N = len(articles)` with no duplicate filename values. -/
theorem registerAll_totals (regs : List RegInput) (now0 now : String)
    (h : (regs.map RegInput.filename).Nodup) :
    (registerAll (freshIndex now0) regs now).total_articles = regs.length ∧
    (registerAll (freshIndex now0) regs now).articles.length = regs.length ∧
    ((registerAll (freshIndex now0) regs now).articles.map ArticleRecord.filename).Nodup ∧
    ∀ (idx : ArticleIndex) (f t c s d n : String),
      (update_index idx f t c s d n).total_articles
        = (update_index idx f t c s d n).articles.length := by
  have harts := registerAll_articles now regs (freshIndex now0)
  have hmap : (registerAll (freshIndex now0) regs now).articles.map ArticleRecord.filename
      = regs.map RegInput.filename := by
    rw [harts]
    show (regs.map fun r => mkArticleRecord r.filename r.title r.category r.subcategory r.date).map
        ArticleRecord.filename = regs.map RegInput.filename
    rw [List.map_map]
    rfl
  refine ⟨?_, ?_, ?_, fun idx f t c s d n => rfl⟩
  · rw [registerAll_total now regs (freshIndex now0) rfl, harts]
    simp [freshIndex]
  · rw [harts]; simp [freshIndex]
  · rw [hmap]; exact h

/-- Witness for `registerAll_totals`: two registrations with distinct
filenames into the fresh index. -/
theorem registerAll_totals_witness :
    (registerAll (freshIndex "t0")
        [⟨"f1.html", "甲", "civil-law", "torts", "2025-01-01"⟩,
         ⟨"f2.html", "乙", "tax-law", "income", "2025-01-02"⟩] "t1").total_articles = 2 ∧
    (registerAll (freshIndex "t0")
        [⟨"f1.html", "甲", "civil-law", "torts", "2025-01-01"⟩,
         ⟨"f2.html", "乙", "tax-law", "income", "2025-01-02"⟩] "t1").articles.length = 2 ∧
    ((registerAll (freshIndex "t0")
        [⟨"f1.html", "甲", "civil-law", "torts", "2025-01-01"⟩,
         ⟨"f2.html", "乙", "tax-law", "income", "2025-01-02"⟩] "t1").articles.map
        ArticleRecord.filename).Nodup := by
  have h := registerAll_totals
    [⟨"f1.html", "甲", "civil-law", "torts", "2025-01-01"⟩,
     ⟨"f2.html", "乙", "tax-law", "income", "2025-01-02"⟩] "t0" "t1" (by decide)
  exact ⟨h.1, h.2.1, h.2.2.1⟩

/-- Claim C6: `load_index` returns the parsed content when the index file
exists and parses; when the file is absent it succeeds with a fresh index
seeded with the static category table, an empty `articles` list and
`total_articles = 0`; it fails only on a present-but-malformed file, with
`CorruptIndex`. -/
theorem load_index_cases (now : String) :
    load_index none now = .ok (freshIndex now) ∧
    (freshIndex now).articles = [] ∧
    (freshIndex now).total_articles = 0 ∧
    (freshIndex now).categories = categoriesTable ∧
    (∀ idx, load_index (some (some idx)) now = .ok idx) ∧
    load_index (some none) now = .error .corruptIndex :=
  ⟨rfl, rfl, rfl, rfl, fun _ => rfl, rfl⟩

/-- Claim C2 (counterexample): the slug deriver does not strip every
character that is not alphanumeric, whitespace, or hyphen — on the title
`a_b` the code keeps the underscore (Python `\w` includes it), whereas the
claimed character class would drop it. -/
theorem generate_filename_underscore_cex :
    generate_filename "inheritance" "tax-planning" "a_b" "20250101"
      = "inheritance-tax-planning-a_b-20250101.html" ∧
    generate_filename_specAlnum "inheritance" "tax-planning" "a_b" "20250101"
      = "inheritance-tax-planning-ab-20250101.html" ∧
    generate_filename "inheritance" "tax-planning" "a_b" "20250101"
      ≠ generate_filename_specAlnum "inheritance" "tax-planning" "a_b" "20250101" ∧
    ('_'.isAlphanum || pySpace '_' || '_' = '-') = false :=
  ⟨by decide, by decide, by decide, by decide⟩

/-- Claim C2 (amended): the slug deriver strips every character that is not
a word character (alphanumeric or underscore), whitespace, or hyphen from the
title, collapses runs of whitespace/hyphens to a single hyphen (so every
character of the slug is a word character or a hyphen), and returns exactly
`{category}-{subcategory}-{slug}-{date}.html`; it is deterministic (identical
inputs give the identical string), and the spec's concrete example holds. -/
theorem generate_filename_slug_spec (category subcategory title date : String) :
    (∀ c ∈ (slugOf title).data, pyWordChar c = true ∨ c = '-') ∧
    generate_filename category subcategory title date
      = category ++ "-" ++ subcategory ++ "-" ++ slugOf title ++ "-" ++ date ++ ".html" ∧
    generate_filename category subcategory title date
      = generate_filename category subcategory title date ∧
    generate_filename "inheritance" "tax-planning" "遺產稅申報期限與罰則" "20250101"
      = "inheritance-tax-planning-遺產稅申報期限與罰則-20250101.html" := by
  refine ⟨?_, rfl, rfl, by decide⟩
  intro c hc
  have hc2 : c ∈ collapseAux
      (stripWs (title.data.filter (fun c => pyWordChar c || pySpace c || c = '-'))) false := hc
  rcases mem_collapseAux _ _ hc2 with h1 | ⟨h1, hdash, hspace⟩
  · exact Or.inr h1
  · left
    have h2 := List.mem_filter.mp (mem_stripWs h1)
    have h3 := h2.2
    simp only [Bool.or_eq_true, decide_eq_true_eq] at h3
    rcases h3 with (hw | hs) | hd
    · exact hw
    · exact absurd (show pySpace c = true from hs) (by rw [hspace]; simp)
    · exact absurd hd hdash

/-- Witness for `generate_filename_slug_spec`: the spec's own example input,
with the slug character class checked on the first title character. -/
theorem generate_filename_slug_spec_witness :
    (pyWordChar '遺' = true ∨ '遺' = '-') ∧
    generate_filename "inheritance" "tax-planning" "遺產稅申報期限與罰則" "20250101"
      = "inheritance" ++ "-" ++ "tax-planning" ++ "-" ++ slugOf "遺產稅申報期限與罰則"
        ++ "-" ++ "20250101" ++ ".html" ∧
    generate_filename "inheritance" "tax-planning" "遺產稅申報期限與罰則" "20250101"
      = "inheritance-tax-planning-遺產稅申報期限與罰則-20250101.html" := by
  have h := generate_filename_slug_spec "inheritance" "tax-planning" "遺產稅申報期限與罰則" "20250101"
  exact ⟨h.1 '遺' (by decide), h.2.1, h.2.2.2⟩

/-- Claim C7: the category inference equals the first-match-wins application
of its ordered keyword rule list to the lowercased filename, always returns
one of the 8 fixed categories, and returns `civil-law` whenever no rule
matches. -/
theorem infer_category_spec (filename : String) :
    infer_category_from_filename filename
      = firstMatchCategory keywordRules (lowerStr filename) ∧
    infer_category_from_filename filename ∈ categoryNames ∧
    ((∀ r ∈ keywordRules, matchesRule (lowerStr filename) r.1 = false) →
      infer_category_from_filename filename = "civil-law") := by
  refine ⟨infer_eq_firstMatch filename, ?_, ?_⟩
  · rw [infer_eq_firstMatch filename]
    exact firstMatchCategory_mem keywordRules (by decide)
  · intro h
    rw [infer_eq_firstMatch filename]
    exact firstMatchCategory_default keywordRules h

/-- Witness for `infer_category_spec`: a filename matching none of the
keyword rules falls through to `civil-law`. -/
theorem infer_category_spec_witness :
    infer_category_from_filename "article-foo.html" = "civil-law" :=
  (infer_category_spec "article-foo.html").2.2 (by decide)

/-- Claim C3 (counterexample): the sitemap builder does not produce
`K + |static pages|` entries for an index with `K` articles — it never reads
the index.  Here the index holds `K = 1` registered article, the registered
file is even present on disk, yet the generated sitemap has only the 2 static
entries (the registrar's filenames never start with `article-`, so the scan
skips them): `2 ≠ 1 + 2`. -/
theorem generate_sitemap_index_cex :
    (update_index (freshIndex "t0") "inheritance-tax-planning-x-20250101.html"
        "x" "inheritance" "tax-planning" "2025-01-01" "t1").articles.length = 1 ∧
    (generate_sitemap_index
        [{ name := "inheritance-tax-planning-x-20250101.html",
           content := "<html></html>", mtimeDate := "2025-01-01" }]
        "2025-01-01").length = 2 ∧
    (2 : Nat) ≠ 1 + 2 :=
  ⟨by decide, by decide, by decide⟩

/-- Claim C3 (amended): `generate_sitemap_index` produces exactly
`2 + A` url entries, where `A` is the number of scanned root-directory files
whose name starts with `article-` and ends with `.html` and `2` counts the
hard-coded static entries (the article index plays no role: the builder
derives everything from the directory scan); and when the scanned filenames
are pairwise distinct, no two entries share the same `loc`. -/
theorem generate_sitemap_index_count (files : List DiskFile) (today : String)
    (h : (files.map DiskFile.name).Nodup) :
    (generate_sitemap_index files today).length
      = 2 + (files.filter (fun f => isRootArticleFile f.name)).length ∧
    ((generate_sitemap_index files today).map SitemapEntry.loc).Nodup := by
  constructor
  · simp only [generate_sitemap_index, scan_existing_articles, staticSitemapEntries,
      List.length_append, List.length_map, List.length_cons, List.length_nil]
  · have hmap : (generate_sitemap_index files today).map SitemapEntry.loc
        = ["https://lawyer880.com/", "https://lawyer880.com/legal-knowledge.html"]
          ++ ((files.filter (fun f => isRootArticleFile f.name)).map DiskFile.name).map
              (fun n => "https://lawyer880.com/" ++ n) := by
      simp only [generate_sitemap_index, scan_existing_articles, staticSitemapEntries,
        List.map_append, List.map_map]
      rfl
    rw [hmap, List.nodup_append]
    refine ⟨by decide, ?_, ?_⟩
    · have hsub : List.Sublist
          ((files.filter (fun f => isRootArticleFile f.name)).map DiskFile.name)
          (files.map DiskFile.name) :=
        (List.filter_sublist files).map DiskFile.name
      exact ((h.sublist hsub).map (fun a b hab => strAppend_left_cancel hab))
    · intro x hx hmem
      simp only [List.mem_map] at hmem
      obtain ⟨n, hn, rfl⟩ := hmem
      simp only [List.mem_map, List.mem_filter] at hn
      obtain ⟨f, ⟨_, hpred⟩, rfl⟩ := hn
      have hstart : startsWithStr "article-" f.name = true := by
        simp only [isRootArticleFile, Bool.and_eq_true] at hpred
        exact hpred.1
      rcases List.mem_pair.mp hx with hx | hx
      · have hname : f.name = "" := by
          apply strAppend_left_cancel (p := "https://lawyer880.com/")
          rw [hx, strAppend_empty]
        rw [hname] at hstart
        exact absurd hstart (by decide)
      · have hname : f.name = "legal-knowledge.html" := by
          apply strAppend_left_cancel (p := "https://lawyer880.com/")
          rw [hx]
          decide
        rw [hname] at hstart
        exact absurd hstart (by decide)

/-- Witness for `generate_sitemap_index_count`: one matching article file on
disk gives three entries with pairwise distinct locations. -/
theorem generate_sitemap_index_count_witness :
    (generate_sitemap_index
        [{ name := "article-test.html", content := "x", mtimeDate := "2025-01-01" }]
        "2025-01-01").length = 3 ∧
    ((generate_sitemap_index
        [{ name := "article-test.html", content := "x", mtimeDate := "2025-01-01" }]
        "2025-01-01").map SitemapEntry.loc).Nodup := by
  have h := generate_sitemap_index_count
    [{ name := "article-test.html", content := "x", mtimeDate := "2025-01-01" }]
    "2025-01-01" (by decide)
  exact ⟨h.1.trans (by decide), h.2⟩

/-- Claim C8: on a readable document containing exactly two `<h1>` openings,
`optimize_article_seo` returns the analysis report (reading, never writing),
the report's `h1_count` check is `2`, and the heading-count suggestion is
included in the suggestions list. -/
theorem optimize_seo_two_h1 (files : List (String × String)) (filename content : String)
    (hf : files.lookup filename = some content)
    (h2 : pyCount "<h1" content = 2) :
    optimize_article_seo files filename = .report (analyzeSeo filename content) ∧
    (analyzeSeo filename content).h1_count = 2 ∧
    "h1標籤數量異常(2)，建議每頁只有一個h1" ∈ (analyzeSeo filename content).suggestions := by
  refine ⟨by simp [optimize_article_seo, hf], h2, ?_⟩
  have hmem : "h1標籤數量異常(2)，建議每頁只有一個h1" ∈ seoH1Sugs content := by
    rw [seoH1Sugs, if_pos (by rw [h2]; decide)]
    rw [h2]
    exact List.mem_singleton.mpr (by decide)
  show _ ∈ (seoTitleCheck content).2 ++ (seoDescCheck content).2
      ++ seoH1Sugs content ++ seoLinkSugs content
  exact List.mem_append_left _ (List.mem_append_right _ hmem)

/-- Witness for `optimize_seo_two_h1`: a concrete one-file store whose
document has two `<h1>` openings. -/
theorem optimize_seo_two_h1_witness :
    optimize_article_seo [("a.html", "<h1>甲</h1><h1>乙</h1>")] "a.html"
      = .report (analyzeSeo "a.html" "<h1>甲</h1><h1>乙</h1>") ∧
    (analyzeSeo "a.html" "<h1>甲</h1><h1>乙</h1>").h1_count = 2 ∧
    "h1標籤數量異常(2)，建議每頁只有一個h1"
      ∈ (analyzeSeo "a.html" "<h1>甲</h1><h1>乙</h1>").suggestions :=
  optimize_seo_two_h1 [("a.html", "<h1>甲</h1><h1>乙</h1>")] "a.html"
    "<h1>甲</h1><h1>乙</h1>" (by decide) (by decide)

/-- Claim C10: `optimize_article_seo` is total over its pure interface and
only reads: on a missing file it returns the error dict (no exception), and
on a readable file it returns the analysis report; no branch writes to the
file store, which is taken and left as an immutable argument. -/
theorem optimize_seo_total (files : List (String × String)) (filename : String) :
    (files.lookup filename = none →
      optimize_article_seo files filename = .err ("File not found: " ++ filename)) ∧
    (∀ content, files.lookup filename = some content →
      optimize_article_seo files filename = .report (analyzeSeo filename content)) := by
  constructor
  · intro h
    simp [optimize_article_seo, h]
  · intro content h
    simp [optimize_article_seo, h]

/-- Witness for `optimize_seo_total`: the empty store (missing file) and a
singleton store (readable file). -/
theorem optimize_seo_total_witness :
    optimize_article_seo [] "x.html" = .err "File not found: x.html" ∧
    optimize_article_seo [("y.html", "abc")] "y.html" = .report (analyzeSeo "y.html" "abc") :=
  ⟨((optimize_seo_total [] "x.html").1 rfl).trans (by decide),
   (optimize_seo_total [("y.html", "abc")] "y.html").2 "abc" (by decide)⟩

/-- Claim C9: every filename produced by the slug deriver for a category of
the 8-category table starts with that category name followed by a hyphen and
never with `article-`, while the filesystem scanner lists a root file only
when its name starts with `article-` and ends with `.html`; hence no
deriver-produced filename ever appears in the scanner's article listing. -/
theorem generated_filenames_not_scanned (category : String) (ci : CategoryInfo)
    (hmem : (category, ci) ∈ categoriesTable) (subcategory title date : String) :
    startsWithStr (category ++ "-") (generate_filename category subcategory title date)
      = true ∧
    startsWithStr "article-" (generate_filename category subcategory title date) = false ∧
    ∀ (files : List DiskFile) (a : ScannedArticle), a ∈ scan_existing_articles files →
      isRootArticleFile a.filename = true ∧
      a.filename ≠ generate_filename category subcategory title date := by
  have hdec : generate_filename category subcategory title date
      = (category ++ "-")
        ++ (subcategory ++ "-" ++ slugOf title ++ "-" ++ date ++ ".html") := by
    simp [generate_filename, strAppend_assoc]
  have hno : startsWithStr "article-" (generate_filename category subcategory title date)
      = false := by
    rw [hdec]
    simp only [categoriesTable, List.mem_cons, List.mem_nil_iff, or_false,
      Prod.mk.injEq] at hmem
    rcases hmem with hc | hc | hc | hc | hc | hc | hc | hc <;>
      obtain ⟨rfl, rfl⟩ := hc <;>
      exact startsWithStr_append_eq_false _ (by decide) (by decide)
  refine ⟨by rw [hdec]; exact startsWithStr_append _ _, hno, ?_⟩
  intro files a ha
  have hscan := mem_scan_existing_articles ha
  refine ⟨hscan.1, ?_⟩
  intro heq
  rw [heq, hno] at hscan
  exact Bool.false_ne_true hscan.2

/-- Witness for `generated_filenames_not_scanned`: the `inheritance` table
row, a concrete title, and a one-file directory listing whose scanned entry
differs from the derived filename. -/
theorem generated_filenames_not_scanned_witness :
    startsWithStr ("inheritance" ++ "-")
        (generate_filename "inheritance" "tax-planning" "遺產稅" "20250101") = true ∧
    startsWithStr "article-"
        (generate_filename "inheritance" "tax-planning" "遺產稅" "20250101") = false ∧
    isRootArticleFile (extract_article_info
        { name := "article-old.html", content := "c", mtimeDate := "2024-01-01" }).filename
      = true ∧
    (extract_article_info
        { name := "article-old.html", content := "c", mtimeDate := "2024-01-01" }).filename
      ≠ generate_filename "inheritance" "tax-planning" "遺產稅" "20250101" := by
  have h := generated_filenames_not_scanned "inheritance"
    { name := "繼承法", page := "legal-knowledge.html#inheritance",
      subcategories := ["tax-planning", "registration", "disputes", "wills"] }
    (by decide) "tax-planning" "遺產稅" "20250101"
  have h3 := h.2.2
    [{ name := "article-old.html", content := "c", mtimeDate := "2024-01-01" }]
    (extract_article_info
      { name := "article-old.html", content := "c", mtimeDate := "2024-01-01" })
    (by decide)
  exact ⟨h.1, h.2.1, h3.1, h3.2⟩
